import Mathlib

/-!
# RabbitReels control plane: verification of the specification against the code

Shallow embedding of the RabbitReels job-orchestration and billing code:

* `JobManager` embeds `src/scaling-controller/job_manager.py` (job lifecycle
  state machine, recovery loop);
* `Api` embeds the submission gateway and billing code of `src/api/main.py`
  and `src/api/billing.py`;
* `Monitor` embeds the scaling decision of `src/queue-monitor/monitor.py`;
* `Capacity` embeds the efficiency scoring of
  `src/scaling-controller/capacity_tracker.py`;
* `Health` embeds the graceful-shutdown sequence of
  `src/video-creator/health_monitor.py`.

Timestamps are modelled as integers (seconds); Python floats in the scoring
and threshold arithmetic are modelled as rationals with the same literals.
-/

namespace JobManager

/-- Job status enumeration, from `JobStatus` in `job_manager.py`. -/
inductive JobStatus
  | pending
  | assigned
  | processing
  | completed
  | failed
  | retrying
  | abandoned
  deriving DecidableEq, Repr

/-- Job state record, from the `JobState` dataclass in `job_manager.py`.
Timestamps are seconds as integers. -/
structure JobState where
  job_id : String
  status : JobStatus
  worker_id : Option String
  assigned_at : Option Int
  started_at : Option Int
  completed_at : Option Int
  retry_count : Nat
  max_retries : Nat
  error_message : Option String
  heartbeat_at : Option Int
  deriving DecidableEq, Repr

/-- The job-manager view of a single job: the active record (if the job is
still in the `scaling_jobs` hash) together with its slice of the
`job_history` archive list (newest first, trimmed to 1000 as in
`_archive_job`). -/
structure Store where
  active : Option JobState
  history : List JobState
  deriving DecidableEq, Repr

/-- `create_job`: a fresh PENDING record with `retry_count = 0` and the
configured `max_retries`. -/
def create_job (job_id : String) (max_retries : Nat) : JobState :=
  { job_id := job_id
    status := JobStatus.pending
    worker_id := none
    assigned_at := none
    started_at := none
    completed_at := none
    retry_count := 0
    max_retries := max_retries
    error_message := none
    heartbeat_at := none }

/-- `assign_job`: requires status PENDING, then sets ASSIGNED, the worker id
and `assigned_at`.  Returns `(success, record)`; on failure the record is
returned unchanged. -/
def assign_job (j : JobState) (worker_id : String) (now : Int) :
    Bool × JobState :=
  if j.status = JobStatus.pending then
    (true, { j with status := JobStatus.assigned
                    worker_id := some worker_id
                    assigned_at := some now })
  else
    (false, j)

/-- `start_job`: requires the stored worker id to equal the caller's, then
sets PROCESSING, `started_at` and `heartbeat_at`. -/
def start_job (j : JobState) (worker_id : String) (now : Int) :
    Bool × JobState :=
  if j.worker_id = some worker_id then
    (true, { j with status := JobStatus.processing
                    started_at := some now
                    heartbeat_at := some now })
  else
    (false, j)

/-- `update_job_heartbeat`: requires the stored worker id to equal the
caller's, then refreshes `heartbeat_at`. -/
def update_job_heartbeat (j : JobState) (worker_id : String) (now : Int) :
    Bool × JobState :=
  if j.worker_id = some worker_id then
    (true, { j with heartbeat_at := some now })
  else
    (false, j)

/-- The archived record written by `complete_job`: COMPLETED on success,
FAILED otherwise, with `completed_at` and the error message. -/
def complete_record (j : JobState) (success : Bool) (err : Option String)
    (now : Int) : JobState :=
  { j with status := if success then JobStatus.completed else JobStatus.failed
           completed_at := some now
           error_message := err }

/-- `_retry_job`: RETRYING, worker and all liveness timestamps cleared,
`retry_count` incremented. -/
def retry_job (j : JobState) : JobState :=
  { j with status := JobStatus.retrying
           worker_id := none
           assigned_at := none
           started_at := none
           heartbeat_at := none
           retry_count := j.retry_count + 1 }

/-- The archived record written by `_abandon_job`: ABANDONED with
`completed_at` and the fixed error message.  The worker id is not cleared. -/
def abandon_record (j : JobState) (now : Int) : JobState :=
  { j with status := JobStatus.abandoned
           completed_at := some now
           error_message := some "Job abandoned due to repeated failures" }

/-- The timeout test of `recover_abandoned_jobs`: `started_at` older than
`job_timeout`, or `heartbeat_at` older than `heartbeat_timeout`. -/
def should_recover (j : JobState) (now job_timeout heartbeat_timeout : Int) :
    Bool :=
  (match j.started_at with
   | some t => now - t > job_timeout
   | none => false) ||
  (match j.heartbeat_at with
   | some t => now - t > heartbeat_timeout
   | none => false)

/-- One state-changing job-manager call, with its arguments. -/
inductive Op
  | assign (worker_id : String) (now : Int)
  | start (worker_id : String) (now : Int)
  | heartbeat (worker_id : String) (now : Int)
  | complete (worker_id : String) (success : Bool) (err : Option String)
      (now : Int)
  | recover (now job_timeout heartbeat_timeout : Int)
  deriving Repr

/-- Apply one call to the per-job store.  A call on a job that is no longer
in the active hash fails without effect (`get_job_state` returns `None`).
`complete_job` archives the record and removes it from the active hash; the
recovery sweep either retries the record in place or abandons, archives and
removes it. -/
def applyOp (s : Store) (op : Op) : Bool × Store :=
  match s.active with
  | none => (false, s)
  | some j =>
    match op with
    | Op.assign w now =>
      let r := assign_job j w now
      (r.1, { s with active := some r.2 })
    | Op.start w now =>
      let r := start_job j w now
      (r.1, { s with active := some r.2 })
    | Op.heartbeat w now =>
      let r := update_job_heartbeat j w now
      (r.1, { s with active := some r.2 })
    | Op.complete w success err now =>
      if j.worker_id = some w then
        (true, { active := none
                 history := (complete_record j success err now :: s.history).take 1000 })
      else
        (false, s)
    | Op.recover now jt ht =>
      if should_recover j now jt ht then
        if j.retry_count < j.max_retries then
          (true, { s with active := some (retry_job j) })
        else
          (true, { active := none
                   history := (abandon_record j now :: s.history).take 1000 })
      else
        (false, s)

/-- The stores reachable for one job: it is created PENDING and then any
sequence of job-manager calls is applied. -/
inductive Reachable : Store → Prop
  | created (job_id : String) (max_retries : Nat) :
      Reachable { active := some (create_job job_id max_retries), history := [] }
  | step (s : Store) (op : Op) : Reachable s → Reachable (applyOp s op).2

end JobManager

namespace Api

/-- Association-list lookup, modelling a keyed table or a Redis key lookup. -/
def lookup {α : Type} : List (String × α) → String → Option α
  | [], _ => none
  | (k, v) :: t, key => if k = key then some v else lookup t key

/-- Association-list update: overwrite the first binding of the key, or
append a new binding. -/
def setKV {α : Type} : List (String × α) → String → α → List (String × α)
  | [], k, v => [(k, v)]
  | (k', v') :: t, k, v =>
    if k' = k then (k, v) :: t else (k', v') :: setKV t k v

/-- The request body of `POST /videos`, from `PromptJob` in
`common/schemas.py`. -/
structure PromptJob where
  job_id : String
  prompt : String
  character_theme : String
  title : Option String
  deriving DecidableEq, Repr

/-- A row of the `user_videos` table, from `UserVideo` in
`api/database.py`, restricted to the fields the gateway writes. -/
structure UserVideo where
  user_id : String
  job_id : String
  title : String
  character_theme : String
  prompt : String
  status : String
  error_message : Option String
  download_url : Option String
  file_path : Option String
  deriving DecidableEq, Repr

/-- A row of the `credit_transactions` ledger table, from
`CreditTransaction` in `api/database.py`. -/
structure LedgerEntry where
  user_id : String
  amount : Int
  description : String
  deriving DecidableEq, Repr

/-- The state the API service reads and writes: the `user_videos` table
(rows keyed by a fresh primary key), the `credit_balances` table, the
append-only ledger, the Redis job-status keys, the Redis
`processed_session:` idempotency markers, and the `scripts` queue. -/
structure ApiState where
  videos : List (Nat × UserVideo)
  nextId : Nat
  balances : List (String × Int)
  ledger : List LedgerEntry
  redis : List (String × String)
  markers : List (String × String)
  queue : List String
  deriving DecidableEq, Repr

/-- The error variants the submission and billing paths raise, with their
HTTP status codes. -/
inductive ApiError
  | invalid_session
  | insufficient_credits
  | bad_theme
  | enqueue_failed
  deriving DecidableEq, Repr

/-- HTTP status code of each error variant, as raised in `main.py` and
`billing.py`. -/
def ApiError.code : ApiError → Nat
  | ApiError.invalid_session => 400
  | ApiError.insufficient_credits => 402
  | ApiError.bad_theme => 400
  | ApiError.enqueue_failed => 500

/-- Theme allow-list from `AVAILABLE_THEMES` in `api/config.py`. -/
def AVAILABLE_THEMES : List String := ["family_guy", "rick_and_morty"]

/-- `get_user_credits`: the balance row, or 0 when the user has none. -/
def get_user_credits (user_id : String) (s : ApiState) : Int :=
  match lookup s.balances user_id with
  | some c => c
  | none => 0

/-- `spend_credit` from `billing.py`: fail with 402 when the balance row is
missing or not positive; otherwise decrement the balance and append a `-1`
ledger entry in the same transaction. -/
def spend_credit (user_id : String) (s : ApiState) : Except ApiError ApiState :=
  match lookup s.balances user_id with
  | none => Except.error ApiError.insufficient_credits
  | some c =>
    if c ≤ 0 then
      Except.error ApiError.insufficient_credits
    else
      Except.ok
        { s with
          balances := setKV s.balances user_id (c - 1)
          ledger := s.ledger ++ [⟨user_id, -1, "Video generation"⟩] }

/-- `grant_credits` from `billing.py`: add to (or create) the balance row
and append a positive ledger entry in the same transaction. -/
def grant_credits (user_id : String) (credits : Int) (s : ApiState) :
    ApiState :=
  let newBalance :=
    match lookup s.balances user_id with
    | some c => c + credits
    | none => credits
  { s with
    balances := setKV s.balances user_id newBalance
    ledger := s.ledger ++ [⟨user_id, credits, s!"Purchased {credits} credits"⟩] }

/-- Modelled from the spec: `refund_credit` is imported from the billing
module by `main.py` but no definition exists in the repository; per the
spec (§4.1) a refund is a grant of `+1` tagged with the refund reason. -/
def refund_credit (user_id : String) (reason : String) (s : ApiState) :
    ApiState :=
  let newBalance :=
    match lookup s.balances user_id with
    | some c => c + 1
    | none => 1
  { s with
    balances := setKV s.balances user_id newBalance
    ledger := s.ledger ++ [⟨user_id, 1, reason⟩] }

/-- The title derivation of `submit_video`: the given title when it is
non-empty, otherwise the first 50 characters of the prompt, trimmed, with
an ellipsis when the prompt is longer. -/
def derive_title (job : PromptJob) : String :=
  let derived :=
    (job.prompt.take 50).trim ++ (if job.prompt.length > 50 then "..." else "")
  match job.title with
  | some t => if t = "" then derived else t
  | none => derived

/-- `submit_video` from `main.py`.  `publish_ok i` tells whether the `i`-th
RabbitMQ publish attempt (0-based, up to 3 attempts) succeeds.  The steps,
in source order: reject an empty user id; insert the `user_videos` row with
status "queued" and commit; `spend_credit`, deleting the new row and
re-raising on failure; validate the theme (raising 400 with no cleanup);
write the "queued" status to Redis; publish with up to 3 attempts, on final
failure overwrite the Redis status with "error" and raise 500. -/
def submit_video (publish_ok : Nat → Bool) (job : PromptJob)
    (user_id : String) (s : ApiState) :
    Except ApiError (String × String) × ApiState :=
  if user_id = "" then
    (Except.error ApiError.invalid_session, s)
  else
    let uv : UserVideo :=
      { user_id := user_id
        job_id := job.job_id
        title := derive_title job
        character_theme := job.character_theme
        prompt := job.prompt
        status := "queued"
        error_message := none
        download_url := none
        file_path := none }
    let rowId := s.nextId
    let s1 : ApiState :=
      { s with videos := s.videos ++ [(rowId, uv)], nextId := s.nextId + 1 }
    match spend_credit user_id s1 with
    | Except.error e =>
      (Except.error e,
       { s1 with videos := s1.videos.filter (fun p => p.1 ≠ rowId) })
    | Except.ok s2 =>
      if job.character_theme ∈ AVAILABLE_THEMES then
        let s3 := { s2 with redis := setKV s2.redis job.job_id "queued" }
        if publish_ok 0 || publish_ok 1 || publish_ok 2 then
          (Except.ok (job.job_id, "queued"),
           { s3 with queue := s3.queue ++ [job.job_id] })
        else
          (Except.error ApiError.enqueue_failed,
           { s3 with redis := setKV s3.redis job.job_id "error" })
      else
        (Except.error ApiError.bad_theme, s2)

/-- `update_user_video_status` from `main.py`: find the row by job id;
when the new status is "error" and the stored one is not, refund the
credit; then overwrite the row's status and optional fields.  Returns the
`success` flag of the response. -/
def update_user_video_status (job_id status : String)
    (file_path download_url error_message : Option String) (s : ApiState) :
    Bool × ApiState :=
  match s.videos.find? (fun p => p.2.job_id = job_id) with
  | none => (false, s)
  | some (i, uv) =>
    let s1 :=
      if status = "error" ∧ uv.status ≠ "error" then
        refund_credit uv.user_id
          (match error_message with
           | some m => s!"Video generation failed: {m}"
           | none => "Video generation failed: Unknown error") s
      else s
    let uv' : UserVideo :=
      { uv with
        status := status
        file_path := match file_path with
          | some p => some p
          | none => uv.file_path
        download_url := match download_url with
          | some u => some u
          | none => uv.download_url
        error_message := match error_message with
          | some m => some m
          | none => uv.error_message }
    (true,
     { s1 with
       videos := s1.videos.map (fun p => if p.1 = i then (i, uv') else p) })

/-- The `checkout.session.completed` branch of `stripe_webhook` in
`billing.py`.  With Redis down the grant happens unconditionally; with
Redis up the `processed_session:{id}` marker is read first, granting and
then writing the marker only when the marker is not already `"1"`. -/
def stripe_webhook_completed (redis_up : Bool) (user_id : String)
    (credits : Int) (session_id : String) (s : ApiState) : ApiState :=
  if user_id ≠ "" ∧ credits > 0 then
    if redis_up then
      let key := "processed_session:" ++ session_id
      match lookup s.markers key with
      | some v =>
        if v = "1" then s
        else
          let s1 := grant_credits user_id credits s
          { s1 with markers := setKV s1.markers key "1" }
      | none =>
        let s1 := grant_credits user_id credits s
        { s1 with markers := setKV s1.markers key "1" }
    else
      grant_credits user_id credits s
  else s

end Api

namespace Monitor

/-- Scaling action of a decision. -/
inductive Action
  | scale_up
  | scale_down
  | maintain
  deriving DecidableEq, Repr

/-- The result of `calculate_scaling_decision`. -/
structure Decision where
  action : Action
  target_workers : Nat
  deriving DecidableEq, Repr

/-- Queue-monitor configuration (`MIN_WORKERS`, `MAX_WORKERS`,
`SCALE_DOWN_THRESHOLD`, `COOLDOWN_PERIOD`).  The threshold is a float in
the source, modelled as a rational. -/
structure Config where
  min_workers : Nat
  max_workers : Nat
  scale_down_threshold : ℚ
  cooldown_period : Int
  deriving Repr

/-- The target-worker computation inside `calculate_scaling_decision`
(lines 249-262 of `monitor.py`): with no workload keep
`max(min_workers, min(active, 2))`; otherwise
`min(max(workload, workload / 2 + 1), max_workers)` where
`workload = queue_depth + processing_jobs`; finally raise to
`min_workers`. -/
def compute_target (cfg : Config) (queue_depth active_workers
    processing_jobs : Nat) : Nat :=
  let target :=
    if queue_depth = 0 ∧ processing_jobs = 0 then
      max cfg.min_workers (min active_workers 2)
    else if queue_depth > 0 ∨ processing_jobs > 0 then
      min (max (queue_depth + processing_jobs)
               ((queue_depth + processing_jobs) / 2 + 1))
          cfg.max_workers
    else
      active_workers
  max target cfg.min_workers

/-- `calculate_scaling_decision` from `monitor.py`: maintain during the
cooldown window; otherwise compute the target and pick scale-up (gated on
80% healthy workers), scale-down (gated on idle workers and
`queue_depth < active · scale_down_threshold`, raising the target to
`workers_with_jobs + 1`), or maintain. -/
def calculate_scaling_decision (cfg : Config) (now last_scaling_action : Int)
    (queue_depth active_workers healthy_workers processing_jobs
     workers_with_jobs : Nat) : Decision :=
  if now - last_scaling_action < cfg.cooldown_period then
    { action := Action.maintain, target_workers := active_workers }
  else
    let target := compute_target cfg queue_depth active_workers processing_jobs
    if target > active_workers then
      if (healthy_workers : ℚ) ≥ (active_workers : ℚ) * (4 / 5) then
        { action := Action.scale_up, target_workers := target }
      else
        { action := Action.maintain, target_workers := active_workers }
    else if target < active_workers then
      if active_workers - workers_with_jobs > 0 ∧
          (queue_depth : ℚ) < (active_workers : ℚ) * cfg.scale_down_threshold then
        { action := Action.scale_down
          target_workers := max target (workers_with_jobs + 1) }
      else
        { action := Action.maintain, target_workers := active_workers }
    else
      { action := Action.maintain, target_workers := active_workers }

end Monitor

namespace Capacity

/-- Performance tier classification from `WorkerPerformanceTier`. -/
inductive Tier
  | excellent
  | good
  | average
  | poor
  deriving DecidableEq, Repr

/-- `_calculate_efficiency_score` from `capacity_tracker.py`, with floats
as rationals: 40% of the success rate, a throughput component (only added
when `jobs_per_hour > 0`), resource penalties above 70/70/80 percent, a
stability bonus, clamped to [0, 100]. -/
def calculate_efficiency_score (success_rate jobs_per_hour cpu mem disk : ℚ) :
    ℚ :=
  let score := success_rate * (4 / 10)
  let score :=
    if jobs_per_hour > 0 then score + min (jobs_per_hour / 2) 1 * 30 else score
  let cpu_penalty := max 0 (cpu - 70) * (3 / 10)
  let memory_penalty := max 0 (mem - 70) * (3 / 10)
  let disk_penalty := max 0 (disk - 80) * (2 / 10)
  let score := score - (cpu_penalty + memory_penalty + disk_penalty)
  let score :=
    if success_rate > 95 ∧ jobs_per_hour > 1 then score + 10 else score
  max 0 (min 100 score)

/-- The score formula exactly as the specification words it, for
comparison with the source translation: `0.4·success_rate +
30·min(jobs_per_hour/2, 1) − 0.3·max(0, cpu−70) − 0.3·max(0, mem−70) −
0.2·max(0, disk−80) + (10 if success_rate > 95 ∧ jobs_per_hour > 1)`,
clamped into [0, 100]. -/
def spec_efficiency_score (success_rate jobs_per_hour cpu mem disk : ℚ) : ℚ :=
  let score :=
    (4 / 10) * success_rate + 30 * min (jobs_per_hour / 2) 1
      - (3 / 10) * max 0 (cpu - 70) - (3 / 10) * max 0 (mem - 70)
      - (2 / 10) * max 0 (disk - 80)
      + (if success_rate > 95 ∧ jobs_per_hour > 1 then 10 else 0)
  max 0 (min 100 score)

/-- `_determine_performance_tier`: ≥80 excellent, ≥60 good, ≥40 average,
else poor. -/
def determine_performance_tier (score : ℚ) : Tier :=
  if score ≥ 80 then Tier.excellent
  else if score ≥ 60 then Tier.good
  else if score ≥ 40 then Tier.average
  else Tier.poor

end Capacity

namespace Health

/-- The health-monitor fields that the graceful-shutdown sequence touches,
from `WorkerHealthMonitor` in `health_monitor.py`, plus whether the
worker's row is still in the `scaling_workers` registry. -/
structure WorkerState where
  is_shutting_down : Bool
  is_healthy : Bool
  current_job : Option String
  shutdown_event : Bool
  registered : Bool
  deriving DecidableEq, Repr

/-- The observable steps `initiate_graceful_shutdown` performs, in order. -/
inductive ShutdownStep
  | set_flags
  | update_heartbeat
  | set_shutdown_event
  | log_waiting_for_job (job_id : String)
  | join_heartbeat_thread
  | unregister
  deriving DecidableEq, Repr

/-- `initiate_graceful_shutdown` from `health_monitor.py`: set
`is_shutting_down` and mark unhealthy, push a heartbeat, set the shutdown
event, log a waiting message when a job is in flight (without waiting for
or completing it), join the heartbeat thread, and unregister the worker.
Returns the final state and the ordered trace of steps. -/
def initiate_graceful_shutdown (w : WorkerState) :
    WorkerState × List ShutdownStep :=
  let w1 := { w with is_shutting_down := true, is_healthy := false }
  let trace1 := [ShutdownStep.set_flags, ShutdownStep.update_heartbeat]
  let w2 := { w1 with shutdown_event := true }
  let trace2 := trace1 ++ [ShutdownStep.set_shutdown_event]
  let trace3 :=
    match w2.current_job with
    | some job_id => trace2 ++ [ShutdownStep.log_waiting_for_job job_id]
    | none => trace2
  let trace4 := trace3 ++ [ShutdownStep.join_heartbeat_thread]
  let w3 := { w2 with registered := false }
  (w3, trace4 ++ [ShutdownStep.unregister])

end Health

namespace Api

theorem lookup_setKV_self {α : Type} (l : List (String × α)) (k : String)
    (v : α) : lookup (setKV l k v) k = some v := by
  induction l with
  | nil => simp [setKV, lookup]
  | cons p t ih =>
    by_cases h : p.1 = k
    · simp [setKV, h, lookup]
    · simp [setKV, h, lookup, ih]

theorem lookup_setKV_ne {α : Type} (l : List (String × α)) (k k' : String)
    (v : α) (h : k' ≠ k) : lookup (setKV l k v) k' = lookup l k' := by
  induction l with
  | nil =>
    have h' : ¬ k = k' := fun hh => h hh.symm
    simp [setKV, lookup, h']
  | cons p t ih =>
    obtain ⟨a, b⟩ := p
    by_cases hp : a = k
    · subst hp
      have h' : ¬ a = k' := fun hh => h hh.symm
      simp [setKV, lookup, h']
    · by_cases ha : a = k'
      · simp [setKV, hp, lookup, ha, h]
      · simp [setKV, hp, lookup, ha, ih]

theorem filter_append_fresh {α : Type} (l : List (Nat × α)) (n : Nat)
    (x : α) (h : ∀ p ∈ l, p.1 < n) :
    (l ++ [(n, x)]).filter (fun p => p.1 ≠ n) = l := by
  rw [List.filter_append]
  have h1 : l.filter (fun p => p.1 ≠ n) = l := by
    apply List.filter_eq_self.mpr
    intro p hp
    have := h p hp
    simp only [ne_eq, decide_eq_true_eq]
    omega
  have h2 : List.filter (fun p => p.1 ≠ n) [(n, x)] = [] := by
    simp [List.filter]
  rw [h1, h2, List.append_nil]

theorem get_user_credits_grant (user_id : String) (credits : Int)
    (s : ApiState) :
    get_user_credits user_id (grant_credits user_id credits s) =
      get_user_credits user_id s + credits := by
  unfold get_user_credits grant_credits
  cases h : lookup s.balances user_id <;>
    simp [h, lookup_setKV_self]

/-- After a first processed delivery the idempotency marker of the session
holds `"1"`. -/
theorem webhook_marker_set (user_id session_id : String) (credits : Int)
    (s : ApiState) (hu : user_id ≠ "") (hc : 0 < credits) :
    lookup (stripe_webhook_completed true user_id credits session_id s).markers
      ("processed_session:" ++ session_id) = some "1" ∨
    lookup s.markers ("processed_session:" ++ session_id) = some "1" := by
  unfold stripe_webhook_completed
  simp only [hu, hc, ne_eq, not_false_iff, true_and, if_true]
  cases h : lookup s.markers ("processed_session:" ++ session_id) with
  | none => left; simp [h, grant_credits, lookup_setKV_self]
  | some v =>
    by_cases hv : v = "1"
    · subst hv
      right
      rfl
    · left
      simp [h, hv, grant_credits, lookup_setKV_self]

/-- A delivery whose session marker already holds `"1"` is a no-op. -/
theorem webhook_fixed_when_marked (user_id session_id : String)
    (credits : Int) (s : ApiState)
    (hm : lookup s.markers ("processed_session:" ++ session_id) = some "1") :
    stripe_webhook_completed true user_id credits session_id s = s := by
  unfold stripe_webhook_completed
  by_cases hcond : user_id ≠ "" ∧ credits > 0
  · simp [hcond, hm]
  · simp [hcond]

/-- A first (unmarked) delivery grants the credits and writes the
marker. -/
theorem webhook_first_effects (user_id session_id : String) (credits : Int)
    (s : ApiState) (hu : user_id ≠ "") (hc : 0 < credits)
    (hm : lookup s.markers ("processed_session:" ++ session_id) ≠ some "1") :
    stripe_webhook_completed true user_id credits session_id s =
      { grant_credits user_id credits s with
        markers := setKV (grant_credits user_id credits s).markers
          ("processed_session:" ++ session_id) "1" } := by
  unfold stripe_webhook_completed
  simp only [ne_eq, hu, not_false_iff, hc, gt_iff_lt, and_self, if_true,
    true_and]
  cases h : lookup s.markers ("processed_session:" ++ session_id) with
  | none => simp [h]
  | some v =>
    have hv : v ≠ "1" := by
      intro hh
      exact hm (by rw [h, hh])
    simp [h, hv]

/-- C2: a submission by a user whose balance row is missing or holds 0
fails with 402 INSUFFICIENT_CREDITS, writes no ledger entry, and leaves no
video record: the row created before the debit attempt is deleted, so the
videos table, balances, ledger, Redis keys and queue all equal their
pre-call values. -/
theorem c2_submit_zero_balance_rolls_back (publish_ok : Nat → Bool)
    (job : PromptJob) (user_id : String) (s : ApiState)
    (huser : user_id ≠ "")
    (hbal : lookup s.balances user_id = none ∨
      lookup s.balances user_id = some 0)
    (hfresh : ∀ p ∈ s.videos, p.1 < s.nextId) :
    (submit_video publish_ok job user_id s).1 =
        Except.error ApiError.insufficient_credits ∧
    ApiError.insufficient_credits.code = 402 ∧
    (submit_video publish_ok job user_id s).2.videos = s.videos ∧
    (submit_video publish_ok job user_id s).2.balances = s.balances ∧
    (submit_video publish_ok job user_id s).2.ledger = s.ledger ∧
    (submit_video publish_ok job user_id s).2.redis = s.redis ∧
    (submit_video publish_ok job user_id s).2.queue = s.queue := by
  have hsp : ∀ s' : ApiState, s'.balances = s.balances →
      spend_credit user_id s' = Except.error ApiError.insufficient_credits := by
    intro s' hs'
    unfold spend_credit
    rw [hs']
    rcases hbal with h | h <;> simp [h]
  simp only [submit_video, if_neg huser]
  simp only [hsp]
  exact ⟨trivial, rfl, filter_append_fresh _ _ _ hfresh, trivial,
    trivial, trivial, trivial⟩

/-- Witness for C2 at a concrete user with a balance row holding 0. -/
theorem c2_submit_zero_balance_rolls_back_witness :
    (submit_video (fun _ => true)
        { job_id := "j1", prompt := "p", character_theme := "family_guy",
          title := some "T" } "u2"
        { videos := [], nextId := 0, balances := [("u2", 0)], ledger := [],
          redis := [], markers := [], queue := [] }).1 =
      Except.error ApiError.insufficient_credits ∧
    ApiError.insufficient_credits.code = 402 ∧
    (submit_video (fun _ => true)
        { job_id := "j1", prompt := "p", character_theme := "family_guy",
          title := some "T" } "u2"
        { videos := [], nextId := 0, balances := [("u2", 0)], ledger := [],
          redis := [], markers := [], queue := [] }).2.videos = [] ∧
    (submit_video (fun _ => true)
        { job_id := "j1", prompt := "p", character_theme := "family_guy",
          title := some "T" } "u2"
        { videos := [], nextId := 0, balances := [("u2", 0)], ledger := [],
          redis := [], markers := [], queue := [] }).2.balances =
      [("u2", 0)] ∧
    (submit_video (fun _ => true)
        { job_id := "j1", prompt := "p", character_theme := "family_guy",
          title := some "T" } "u2"
        { videos := [], nextId := 0, balances := [("u2", 0)], ledger := [],
          redis := [], markers := [], queue := [] }).2.ledger = [] ∧
    (submit_video (fun _ => true)
        { job_id := "j1", prompt := "p", character_theme := "family_guy",
          title := some "T" } "u2"
        { videos := [], nextId := 0, balances := [("u2", 0)], ledger := [],
          redis := [], markers := [], queue := [] }).2.redis = [] ∧
    (submit_video (fun _ => true)
        { job_id := "j1", prompt := "p", character_theme := "family_guy",
          title := some "T" } "u2"
        { videos := [], nextId := 0, balances := [("u2", 0)], ledger := [],
          redis := [], markers := [], queue := [] }).2.queue = [] :=
  c2_submit_zero_balance_rolls_back (fun _ => true)
    { job_id := "j1", prompt := "p", character_theme := "family_guy",
      title := some "T" } "u2"
    { videos := [], nextId := 0, balances := [("u2", 0)], ledger := [],
      redis := [], markers := [], queue := [] }
    (by decide) (Or.inr (by decide)) (by intro p hp; simp at hp)

/-- C3: N ≥ 1 sequential deliveries of the same completed checkout session
(non-empty user, positive credits, marker not yet set) increase the user's
balance by the credit amount exactly once and append exactly one ledger
entry; the duplicates are collapsed by the `processed_session:` marker. -/
theorem c3_webhook_replay_grants_once (user_id session_id : String)
    (credits : Int) (n : Nat) (s : ApiState)
    (hn : 1 ≤ n) (hu : user_id ≠ "") (hc : 0 < credits)
    (hm : lookup s.markers ("processed_session:" ++ session_id) ≠ some "1") :
    get_user_credits user_id
        ((stripe_webhook_completed true user_id credits session_id)^[n] s) =
      get_user_credits user_id s + credits ∧
    ((stripe_webhook_completed true user_id credits session_id)^[n]
        s).ledger =
      s.ledger ++ [⟨user_id, credits, s!"Purchased {credits} credits"⟩] := by
  obtain ⟨m, rfl⟩ : ∃ m, n = m + 1 := ⟨n - 1, by omega⟩
  have hmark :
      lookup (stripe_webhook_completed true user_id credits session_id
        s).markers ("processed_session:" ++ session_id) = some "1" :=
    (webhook_marker_set user_id session_id credits s hu hc).resolve_right hm
  have hiter : ∀ k : Nat,
      (stripe_webhook_completed true user_id credits session_id)^[k]
        (stripe_webhook_completed true user_id credits session_id s) =
      stripe_webhook_completed true user_id credits session_id s := by
    intro k
    induction k with
    | zero => rfl
    | succ j ih =>
      rw [Function.iterate_succ_apply', ih,
        webhook_fixed_when_marked user_id session_id credits _ hmark]
  rw [Function.iterate_succ_apply, hiter,
    webhook_first_effects user_id session_id credits s hu hc hm]
  refine ⟨?_, rfl⟩
  exact get_user_credits_grant user_id credits s

/-- Witness for C3: two deliveries of a 10-credit session starting from an
empty state leave a balance of 10 and a single ledger entry. -/
theorem c3_webhook_replay_grants_once_witness :
    get_user_credits "u1"
        ((stripe_webhook_completed true "u1" 10 "sess")^[2]
          { videos := [], nextId := 0, balances := [], ledger := [],
            redis := [], markers := [], queue := [] }) = 10 ∧
    ((stripe_webhook_completed true "u1" 10 "sess")^[2]
        { videos := [], nextId := 0, balances := [], ledger := [],
          redis := [], markers := [], queue := [] }).ledger =
      [⟨"u1", 10, "Purchased 10 credits"⟩] := by
  have h := c3_webhook_replay_grants_once "u1" "sess" 10 2
    { videos := [], nextId := 0, balances := [], ledger := [], redis := [],
      markers := [], queue := [] }
    (by decide) (by decide) (by decide) (by decide)
  refine ⟨?_, ?_⟩
  · rw [h.1]
    decide
  · rw [h.2]
    decide

/-- C1: the claim requires a refund for every job reaching a terminal
failure after its credit was spent, with the gateway refunding on final
publish failure and marking the job FAILED.  The code violates this: after
a spend, when every publish attempt fails, `submit_video` raises 500 with
no refund ledger entry and the video record keeps status "queued" — only
the Redis status key is set to "error". -/
theorem c1_publish_failure_refunds_nothing :
    (submit_video (fun _ => false)
        { job_id := "j1", prompt := "p", character_theme := "family_guy",
          title := some "T" } "u1"
        { videos := [], nextId := 0, balances := [("u1", 1)], ledger := [],
          redis := [], markers := [], queue := [] }).1 =
      Except.error ApiError.enqueue_failed ∧
    (submit_video (fun _ => false)
        { job_id := "j1", prompt := "p", character_theme := "family_guy",
          title := some "T" } "u1"
        { videos := [], nextId := 0, balances := [("u1", 1)], ledger := [],
          redis := [], markers := [], queue := [] }).2.ledger =
      [⟨"u1", -1, "Video generation"⟩] ∧
    (submit_video (fun _ => false)
        { job_id := "j1", prompt := "p", character_theme := "family_guy",
          title := some "T" } "u1"
        { videos := [], nextId := 0, balances := [("u1", 1)], ledger := [],
          redis := [], markers := [], queue := [] }).2.videos =
      [(0, { user_id := "u1", job_id := "j1", title := "T",
             character_theme := "family_guy", prompt := "p",
             status := "queued", error_message := none,
             download_url := none, file_path := none })] ∧
    lookup (submit_video (fun _ => false)
        { job_id := "j1", prompt := "p", character_theme := "family_guy",
          title := some "T" } "u1"
        { videos := [], nextId := 0, balances := [("u1", 1)], ledger := [],
          redis := [], markers := [], queue := [] }).2.redis "j1" =
      some "error" :=
  ⟨rfl, rfl, rfl, rfl⟩

/-- C6: the claim requires an invalid theme to be rejected with no state
change.  The code validates the theme only after the record insert and the
credit debit: a submission with theme "naruto" by a user holding one
credit is rejected with 400, but afterwards the "queued" video record
remains, the balance is 0, and the `-1` ledger entry persists. -/
theorem c6_bad_theme_keeps_record_and_debit :
    (submit_video (fun _ => true)
        { job_id := "j1", prompt := "p", character_theme := "naruto",
          title := some "T" } "u1"
        { videos := [], nextId := 0, balances := [("u1", 1)], ledger := [],
          redis := [], markers := [], queue := [] }).1 =
      Except.error ApiError.bad_theme ∧
    ApiError.bad_theme.code = 400 ∧
    (submit_video (fun _ => true)
        { job_id := "j1", prompt := "p", character_theme := "naruto",
          title := some "T" } "u1"
        { videos := [], nextId := 0, balances := [("u1", 1)], ledger := [],
          redis := [], markers := [], queue := [] }).2.videos =
      [(0, { user_id := "u1", job_id := "j1", title := "T",
             character_theme := "naruto", prompt := "p",
             status := "queued", error_message := none,
             download_url := none, file_path := none })] ∧
    (submit_video (fun _ => true)
        { job_id := "j1", prompt := "p", character_theme := "naruto",
          title := some "T" } "u1"
        { videos := [], nextId := 0, balances := [("u1", 1)], ledger := [],
          redis := [], markers := [], queue := [] }).2.balances =
      [("u1", 0)] ∧
    (submit_video (fun _ => true)
        { job_id := "j1", prompt := "p", character_theme := "naruto",
          title := some "T" } "u1"
        { videos := [], nextId := 0, balances := [("u1", 1)], ledger := [],
          redis := [], markers := [], queue := [] }).2.ledger =
      [⟨"u1", -1, "Video generation"⟩] ∧
    (submit_video (fun _ => true)
        { job_id := "j1", prompt := "p", character_theme := "naruto",
          title := some "T" } "u1"
        { videos := [], nextId := 0, balances := [("u1", 1)], ledger := [],
          redis := [], markers := [], queue := [] }).2.queue = [] :=
  ⟨rfl, rfl, rfl, rfl, rfl, rfl⟩

end Api

namespace JobManager

/-- One job-manager call preserves the retry bound on the active record
and the retry/abandon properties of archived records. -/
theorem invariant_step (s : Store) (op : Op)
    (ihA : ∀ j, s.active = some j → j.retry_count ≤ j.max_retries)
    (ihH : ∀ j ∈ s.history, j.retry_count ≤ j.max_retries ∧
      (j.status = JobStatus.abandoned → j.retry_count = j.max_retries)) :
    (∀ j, (applyOp s op).2.active = some j →
      j.retry_count ≤ j.max_retries) ∧
    (∀ j ∈ (applyOp s op).2.history, j.retry_count ≤ j.max_retries ∧
      (j.status = JobStatus.abandoned →
        j.retry_count = j.max_retries)) := by
  cases hact : s.active with
  | none =>
    simp only [applyOp, hact]
    exact ⟨fun j hj => (nomatch hj), ihH⟩
  | some j =>
    have hj := ihA j hact
    cases op with
    | assign w now =>
      simp only [applyOp, hact, assign_job]
      by_cases hp : j.status = JobStatus.pending <;>
        simp only [hp, if_true, if_false, reduceIte] <;>
        exact ⟨by intro j' hj'; cases hj'; exact hj, ihH⟩
    | start w now =>
      simp only [applyOp, hact, start_job]
      by_cases hw : j.worker_id = some w <;>
        simp only [hw, if_true, if_false, reduceIte] <;>
        exact ⟨by intro j' hj'; cases hj'; exact hj, ihH⟩
    | heartbeat w now =>
      simp only [applyOp, hact, update_job_heartbeat]
      by_cases hw : j.worker_id = some w <;>
        simp only [hw, if_true, if_false, reduceIte] <;>
        exact ⟨by intro j' hj'; cases hj'; exact hj, ihH⟩
    | complete w success err now =>
      simp only [applyOp, hact]
      by_cases hw : j.worker_id = some w
      · simp only [hw, reduceIte]
        refine ⟨fun j' hj' => (nomatch hj'), ?_⟩
        intro j' hj'
        have hj'' := List.take_subset 1000 _ hj'
        rcases List.mem_cons.mp hj'' with h | h
        · subst h
          refine ⟨hj, ?_⟩
          intro habs
          exfalso
          cases success <;> simp [complete_record] at habs
        · exact ihH j' h
      · simp only [hw, reduceIte]
        exact ⟨fun j' hj' => ihA j' hj', ihH⟩
    | recover now jt ht =>
      simp only [applyOp, hact]
      by_cases hr : should_recover j now jt ht = true
      · by_cases hlt : j.retry_count < j.max_retries
        · simp only [hr, hlt, if_true, reduceIte]
          refine ⟨?_, ihH⟩
          intro j' hj'
          cases hj'
          show j.retry_count + 1 ≤ j.max_retries
          omega
        · simp only [hr, hlt, if_true, if_false, reduceIte]
          refine ⟨fun j' hj' => (nomatch hj'), ?_⟩
          intro j' hj'
          have hj'' := List.take_subset 1000 _ hj'
          rcases List.mem_cons.mp hj'' with h | h
          · subst h
            refine ⟨hj, ?_⟩
            intro _
            show j.retry_count = j.max_retries
            omega
          · exact ihH j' h
      · simp only [hr, reduceIte]
        exact ⟨fun j' hj' => ihA j' hj', ihH⟩

/-- C4 (counterexample): the claim requires `complete` to be permitted
only from PROCESSING, but the code checks only the worker id: completing
an ASSIGNED job with the matching worker succeeds and mutates the store,
so a state-changing call whose status precondition fails does not return
FORBIDDEN. -/
theorem c4_complete_from_assigned_counterexample :
    (applyOp
      { active := some { create_job "j1" 3 with
          status := JobStatus.assigned, worker_id := some "w1",
          assigned_at := some 1 },
        history := [] }
      (Op.complete "w1" true none 5)).1 = true ∧
    ({ create_job "j1" 3 with
        status := JobStatus.assigned, worker_id := some "w1",
        assigned_at := some 1 } : JobState).status ≠
      JobStatus.processing ∧
    (applyOp
      { active := some { create_job "j1" 3 with
          status := JobStatus.assigned, worker_id := some "w1",
          assigned_at := some 1 },
        history := [] }
      (Op.complete "w1" true none 5)).2 ≠
      { active := some { create_job "j1" 3 with
          status := JobStatus.assigned, worker_id := some "w1",
          assigned_at := some 1 },
        history := [] } := by
  decide

/-- C4 (amended): `assign_job` succeeds exactly when the job is PENDING;
`start_job`, `update_job_heartbeat` and `complete_job` succeed exactly
when the caller's worker id equals the stored one (their current status is
not checked); every failing call returns false and leaves the store
unchanged. -/
theorem c4_transition_guards (s : Store) (j : JobState) (w : String)
    (success : Bool) (err : Option String) (now : Int)
    (hj : s.active = some j) :
    ((applyOp s (Op.assign w now)).1 = true ↔
      j.status = JobStatus.pending) ∧
    ((applyOp s (Op.start w now)).1 = true ↔ j.worker_id = some w) ∧
    ((applyOp s (Op.heartbeat w now)).1 = true ↔ j.worker_id = some w) ∧
    ((applyOp s (Op.complete w success err now)).1 = true ↔
      j.worker_id = some w) ∧
    ((applyOp s (Op.assign w now)).1 = false →
      (applyOp s (Op.assign w now)).2 = s) ∧
    ((applyOp s (Op.start w now)).1 = false →
      (applyOp s (Op.start w now)).2 = s) ∧
    ((applyOp s (Op.heartbeat w now)).1 = false →
      (applyOp s (Op.heartbeat w now)).2 = s) ∧
    ((applyOp s (Op.complete w success err now)).1 = false →
      (applyOp s (Op.complete w success err now)).2 = s) := by
  obtain ⟨act, hist⟩ := s
  simp only [Store.mk.injEq] at hj ⊢
  cases hj
  refine ⟨?_, ?_, ?_, ?_, ?_, ?_, ?_, ?_⟩
  · by_cases hp : j.status = JobStatus.pending <;>
      simp [applyOp, assign_job, hp]
  · by_cases hw : j.worker_id = some w <;>
      simp [applyOp, start_job, hw]
  · by_cases hw : j.worker_id = some w <;>
      simp [applyOp, update_job_heartbeat, hw]
  · by_cases hw : j.worker_id = some w <;> simp [applyOp, hw]
  · by_cases hp : j.status = JobStatus.pending <;>
      simp [applyOp, assign_job, hp]
  · by_cases hw : j.worker_id = some w <;>
      simp [applyOp, start_job, hw]
  · by_cases hw : j.worker_id = some w <;>
      simp [applyOp, update_job_heartbeat, hw]
  · by_cases hw : j.worker_id = some w <;> simp [applyOp, hw]

/-- Witness for C4 (amended): assigning a freshly created PENDING job
succeeds. -/
theorem c4_transition_guards_witness :
    (applyOp { active := some (create_job "j1" 3), history := [] }
      (Op.assign "w1" 7)).1 = true :=
  ((c4_transition_guards
      { active := some (create_job "j1" 3), history := [] }
      (create_job "j1" 3) "w1" true none 7 rfl).1).mpr rfl

/-- C5: a timed-out job (stale `started_at` or stale `heartbeat_at`) is
retried when `retry_count < max_retries` — RETRYING, worker cleared,
`retry_count` incremented by one — and abandoned otherwise; consequently
every reachable store satisfies `retry_count ≤ max_retries` on its active
record, and every archived ABANDONED record has
`retry_count = max_retries`. -/
theorem c5_recovery_and_retry_bound :
    (∀ (j : JobState) (h : List JobState) (now jt ht : Int),
      should_recover j now jt ht = true →
      ((j.retry_count < j.max_retries →
        applyOp { active := some j, history := h } (Op.recover now jt ht) =
          (true, { active := some (retry_job j), history := h }) ∧
        (retry_job j).status = JobStatus.retrying ∧
        (retry_job j).worker_id = none ∧
        (retry_job j).retry_count = j.retry_count + 1) ∧
       (¬ j.retry_count < j.max_retries →
        applyOp { active := some j, history := h } (Op.recover now jt ht) =
          (true, { active := none,
                   history := (abandon_record j now :: h).take 1000 }) ∧
        (abandon_record j now).status = JobStatus.abandoned))) ∧
    (∀ s, Reachable s →
      (∀ j, s.active = some j → j.retry_count ≤ j.max_retries) ∧
      (∀ j ∈ s.history, j.retry_count ≤ j.max_retries ∧
        (j.status = JobStatus.abandoned →
          j.retry_count = j.max_retries))) := by
  constructor
  · intro j h now jt ht hrec
    constructor
    · intro hlt
      refine ⟨?_, rfl, rfl, rfl⟩
      simp [applyOp, hrec, hlt]
    · intro hge
      refine ⟨?_, rfl⟩
      simp [applyOp, hrec, hge]
  · intro s hs
    induction hs with
    | created job_id m =>
      constructor
      · intro j hj
        cases hj
        exact Nat.zero_le m
      · intro j hj
        simp at hj
    | step s' op hR ih =>
      exact invariant_step s' op ih.1 ih.2

/-- Witness for C5: a PROCESSING job with a stale heartbeat and
`retry_count = 0 < max_retries = 3` is retried by the sweep. -/
theorem c5_recovery_and_retry_bound_witness :
    applyOp
      { active := some { create_job "j1" 3 with
          status := JobStatus.processing, worker_id := some "w1",
          started_at := some 0, heartbeat_at := some 0 },
        history := [] }
      (Op.recover 5000 3600 300) =
      (true,
       { active := some (retry_job { create_job "j1" 3 with
           status := JobStatus.processing, worker_id := some "w1",
           started_at := some 0, heartbeat_at := some 0 }),
         history := [] }) :=
  ((c5_recovery_and_retry_bound.1
      { create_job "j1" 3 with
        status := JobStatus.processing, worker_id := some "w1",
        started_at := some 0, heartbeat_at := some 0 }
      [] 5000 3600 300 (by decide)).1 (by decide)).1

/-- C10: a job that went through `_retry_job` is stuck: its status is
RETRYING, and every further job-manager call — assign (status is not
PENDING), start/heartbeat/complete (the cleared worker id matches no
caller), and the recovery sweep (both liveness timestamps are cleared, so
no timeout fires) — fails and leaves the store unchanged, so the record
stays RETRYING in the active set. -/
theorem c10_retrying_is_terminal (j : JobState) (h : List JobState)
    (op : Op) :
    (retry_job j).status = JobStatus.retrying ∧
    applyOp { active := some (retry_job j), history := h } op =
      (false, { active := some (retry_job j), history := h }) := by
  refine ⟨rfl, ?_⟩
  cases op with
  | assign w now => simp [applyOp, assign_job, retry_job]
  | start w now => simp [applyOp, start_job, retry_job]
  | heartbeat w now => simp [applyOp, update_job_heartbeat, retry_job]
  | complete w success err now => simp [applyOp, retry_job]
  | recover now jt ht => simp [applyOp, should_recover, retry_job]

end JobManager

namespace Monitor

/-- C7 (counterexample): the claim says the decision never returns
`target_workers` strictly below `workers_with_jobs`, for any metrics
input.  With no active workers but two workers still holding jobs
(`workers_with_jobs = 2 > active_workers = 0`), and no workload, the code
scales up to `min_workers = 1 < 2`. -/
theorem c7_target_below_workers_with_jobs_counterexample :
    (calculate_scaling_decision
      { min_workers := 1, max_workers := 10, scale_down_threshold := 1 / 2,
        cooldown_period := 60 } 100 0 0 0 0 0 2).target_workers < 2 := by
  norm_num [calculate_scaling_decision, compute_target]

/-- C7 (amended): a scale-down decision returns exactly
`max(computed target, workers_with_jobs + 1)`; when the computed target
equals the active worker count the decision is maintain; and under the
assumption `workers_with_jobs ≤ active_workers` (which the counterexample
input violates), no decision returns a target below
`workers_with_jobs`. -/
theorem c7_scaling_decision_bounds (cfg : Config) (now last : Int)
    (qd active healthy pj wwj : Nat) :
    ((calculate_scaling_decision cfg now last qd active healthy pj
        wwj).action = Action.scale_down →
      (calculate_scaling_decision cfg now last qd active healthy pj
        wwj).target_workers =
        max (compute_target cfg qd active pj) (wwj + 1)) ∧
    (compute_target cfg qd active pj = active →
      (calculate_scaling_decision cfg now last qd active healthy pj
        wwj).action = Action.maintain) ∧
    (wwj ≤ active →
      wwj ≤ (calculate_scaling_decision cfg now last qd active healthy pj
        wwj).target_workers) := by
  unfold calculate_scaling_decision
  by_cases h1 : now - last < cfg.cooldown_period
  · simp only [if_pos h1]
    exact ⟨fun h => by simp at h, fun _ => trivial, fun hw => hw⟩
  · simp only [if_neg h1]
    by_cases h2 : compute_target cfg qd active pj > active
    · by_cases h3 : (healthy : ℚ) ≥ (active : ℚ) * (4 / 5)
      · simp only [if_pos h2, if_pos h3]
        exact ⟨fun h => by simp at h, fun he => absurd he (Nat.ne_of_gt h2),
          fun hw => le_trans hw (le_of_lt h2)⟩
      · simp only [if_pos h2, if_neg h3]
        exact ⟨fun h => by simp at h, fun _ => trivial, fun hw => hw⟩
    · by_cases h4 : compute_target cfg qd active pj < active
      · by_cases h5 : active - wwj > 0 ∧
            (qd : ℚ) < (active : ℚ) * cfg.scale_down_threshold
        · simp only [if_neg h2, if_pos h4, if_pos h5]
          exact ⟨fun _ => trivial, fun he => absurd he (Nat.ne_of_lt h4),
            fun _ => le_trans (Nat.le_succ wwj) (le_max_right _ _)⟩
        · simp only [if_neg h2, if_pos h4, if_neg h5]
          exact ⟨fun h => by simp at h, fun _ => trivial, fun hw => hw⟩
      · simp only [if_neg h2, if_neg h4]
        exact ⟨fun h => by simp at h, fun _ => trivial, fun hw => hw⟩

/-- Witness for C7 (amended): with 1 worker holding a job out of 2 active,
the decision target stays at or above 1. -/
theorem c7_scaling_decision_bounds_witness :
    1 ≤ (calculate_scaling_decision
      { min_workers := 1, max_workers := 10, scale_down_threshold := 1 / 2,
        cooldown_period := 60 } 100 0 5 2 2 0 1).target_workers :=
  (c7_scaling_decision_bounds
    { min_workers := 1, max_workers := 10, scale_down_threshold := 1 / 2,
      cooldown_period := 60 } 100 0 5 2 2 0 1).2.2 (by decide)

end Monitor

namespace Capacity

/-- C9: the computed efficiency score equals the specification's formula
`0.4·success_rate + 30·min(jobs_per_hour/2, 1) − 0.3·max(0, cpu−70) −
0.3·max(0, mem−70) − 0.2·max(0, disk−80) + (10 if success_rate > 95 ∧
jobs_per_hour > 1 else 0)` clamped into [0, 100] (for any non-negative
jobs-per-hour rate), and the performance tier is excellent iff
score ≥ 80, good iff 60 ≤ score < 80, average iff 40 ≤ score < 60, and
poor otherwise. -/
theorem c9_efficiency_score_and_tier (sr jph cpu mem disk score : ℚ)
    (hjph : 0 ≤ jph) :
    calculate_efficiency_score sr jph cpu mem disk =
      spec_efficiency_score sr jph cpu mem disk ∧
    (determine_performance_tier score = Tier.excellent ↔ 80 ≤ score) ∧
    (determine_performance_tier score = Tier.good ↔
      60 ≤ score ∧ score < 80) ∧
    (determine_performance_tier score = Tier.average ↔
      40 ≤ score ∧ score < 60) ∧
    (determine_performance_tier score = Tier.poor ↔ score < 40) := by
  constructor
  · unfold calculate_efficiency_score spec_efficiency_score
    rcases eq_or_lt_of_le hjph with h0 | h0
    · have hz : jph = 0 := h0.symm
      subst hz
      have hgt : ¬ ((0:ℚ) > 0) := by norm_num
      have hmin : min ((0:ℚ)/2) 1 = 0 := by norm_num
      have hb : ¬ (sr > 95 ∧ (0:ℚ) > 1) := by
        rintro ⟨-, hh⟩
        norm_num at hh
      simp only [if_neg hgt, if_neg hb, hmin]
      ring_nf
    · have hb' : (0:ℚ) < jph := h0
      simp only [gt_iff_lt, if_pos hb']
      by_cases hb : sr > 95 ∧ jph > 1
      · simp only [if_pos hb]
        ring_nf
      · simp only [if_neg hb]
        ring_nf
  · refine ⟨?_, ?_, ?_, ?_⟩ <;> unfold determine_performance_tier <;>
      split_ifs with h1 h2 h3 <;> simp_all <;> intros <;> linarith

/-- Witness for C9: a worker with full success rate, 2 jobs/hour and
moderate resource use scores identically under both formulas, and a score
of 80 is tier excellent. -/
theorem c9_efficiency_score_and_tier_witness :
    calculate_efficiency_score 100 2 50 50 50 =
      spec_efficiency_score 100 2 50 50 50 ∧
    determine_performance_tier 80 = Tier.excellent := by
  have h := c9_efficiency_score_and_tier 100 2 50 50 50 80 (by norm_num)
  exact ⟨h.1, h.2.1.mpr (by norm_num)⟩

end Capacity

namespace Health

/-- C8: the claim says a worker receiving a termination signal finishes
its in-flight job and only then deregisters, never being deregistered
while a current job exists.  The code's `initiate_graceful_shutdown` sets
the flags but then unregisters unconditionally in the same call: started
with an in-flight job, the final state has the registry row removed while
`current_job` is still set, and the step trace shows it only logged a
waiting message — no completion happens before `unregister`. -/
theorem c8_shutdown_unregisters_with_inflight_job (w : WorkerState)
    (job_id : String) (hjob : w.current_job = some job_id) :
    (initiate_graceful_shutdown w).1.is_shutting_down = true ∧
    (initiate_graceful_shutdown w).1.is_healthy = false ∧
    (initiate_graceful_shutdown w).1.registered = false ∧
    (initiate_graceful_shutdown w).1.current_job = some job_id ∧
    (initiate_graceful_shutdown w).2 =
      [ShutdownStep.set_flags, ShutdownStep.update_heartbeat,
       ShutdownStep.set_shutdown_event,
       ShutdownStep.log_waiting_for_job job_id,
       ShutdownStep.join_heartbeat_thread, ShutdownStep.unregister] := by
  unfold initiate_graceful_shutdown
  simp [hjob]

/-- Witness for C8 at a concrete healthy registered worker processing job
"j1". -/
theorem c8_shutdown_unregisters_with_inflight_job_witness :
    (initiate_graceful_shutdown
      { is_shutting_down := false, is_healthy := true,
        current_job := some "j1", shutdown_event := false,
        registered := true }).1.registered = false ∧
    (initiate_graceful_shutdown
      { is_shutting_down := false, is_healthy := true,
        current_job := some "j1", shutdown_event := false,
        registered := true }).1.current_job = some "j1" :=
  ⟨(c8_shutdown_unregisters_with_inflight_job _ "j1" rfl).2.2.1,
   (c8_shutdown_unregisters_with_inflight_job _ "j1" rfl).2.2.2.1⟩

end Health
